import Mathlib

/-!
Shallow embedding of the fhir-ts-batch repository (src/upload-resources.py and
src/rewrite-id.py) together with theorems settling the specification claims.

Modelling conventions:
* Python `datetime` values are modelled as absolute integer seconds; a Python
  `timedelta` between two such values is their integer difference.  Python's
  `timedelta.seconds` attribute (the in-day seconds component of the normalized
  timedelta, always in `[0, 86400)`) is modelled with `Int.emod _ 86400`.
* Python floats are modelled as rationals.  `round(x, 2)` is modelled as
  `round (x * 100) / 100`; Python rounds half to even while Mathlib's `round`
  rounds half up, but no claim settled below evaluates `round` at a half-cent,
  so the two agree on every input used here.
* Exceptions are modelled with `Option`/explicit error values; a Python method
  that can fall through without a `return` (returning `None`) is modelled with
  an `Option Bool` result.
-/

namespace FhirTsBatch

/-! ## Token Lifecycle Manager: `EncapsulatedOAuth2Token` -/

/-- State of `EncapsulatedOAuth2Token` (upload-resources.py lines 32–52).
Times are absolute integer seconds, durations integer seconds, and the
tolerance (a Python float, default `0.2`) a rational. -/
structure TokenState where
  auth_token : String
  refresh_token : String
  expires_seconds : Int
  expires_at : Int
  refresh_expires_seconds : Int
  refresh_expires_at : Int
  requested_at : Int
  refresh_tolerance : ℚ
deriving DecidableEq

/-- Python `timedelta(seconds=total).seconds`: the in-day seconds component of
the normalized timedelta, in `[0, 86400)` (so never negative, even for negative
`total`). -/
def timedeltaSeconds (total : Int) : Int :=
  Int.emod total 86400

/-- Python `round(x, 2)` on the rational model of floats. -/
def round2 (q : ℚ) : ℚ :=
  (round (q * 100) : ℤ) / 100

/-- `EncapsulatedOAuth2Token.freshness` (lines 71–75): the seconds component of
`expires_at - datetime.now()` divided by `refresh_expires_seconds`, rounded to
two decimals.  The `delta.seconds < 0` early return is kept even though
`timedeltaSeconds` is never negative. -/
def freshness (s : TokenState) (now : Int) (expires_at : Int) : ℚ :=
  let secs := timedeltaSeconds (expires_at - now)
  if secs < 0 then 0
  else round2 ((secs : ℚ) / (s.refresh_expires_seconds : ℚ))

/-- `EncapsulatedOAuth2Token.refresh_freshness` (lines 77–78). -/
def refresh_freshness (s : TokenState) (now : Int) : ℚ :=
  freshness s now s.refresh_expires_at

/-- `EncapsulatedOAuth2Token.token_freshness` (lines 80–81). -/
def token_freshness (s : TokenState) (now : Int) : ℚ :=
  freshness s now s.expires_at

/-- `EncapsulatedOAuth2Token.needs_refresh` (lines 89–104).  The branch that
finds the access token within tolerance (`token_freshness() <= tolerance`)
only logs and falls through without a `return`, so Python returns `None`
there; that is modelled by the `none` result. -/
def needs_refresh (s : TokenState) (now : Int) : Option Bool :=
  if s.expires_at < now then some true
  else if refresh_freshness s now ≤ s.refresh_tolerance then some true
  else if token_freshness s now ≤ s.refresh_tolerance then none
  else some false

/-- `EncapsulatedOAuth2Token.can_refresh` (lines 106–107). -/
def can_refresh (s : TokenState) (now : Int) : Bool :=
  now < s.refresh_expires_at

/-- A token-endpoint JSON response, as accessed by `parse_oauth_response`.
`error` and `error_description` model possibly-absent keys; the four data
fields are the keys the non-error branch reads. -/
structure OAuthResponse where
  error : Option String
  error_description : Option String
  access_token : String
  refresh_token : String
  expires_in : Int
  refresh_expires_in : Int
deriving DecidableEq

/-- A raised Python exception, as far as the claims need to distinguish them. -/
inductive PyError
  | runtimeError (msg : String)
  | keyError (key : String)
deriving DecidableEq

/-- `EncapsulatedOAuth2Token.parse_oauth_response` (lines 54–69).
`self.requested_at` is assigned before the error check, so it is updated even
on the error path.  When `"error"` is present the method raises: a
`RuntimeError` if `"error_description"` is also present, otherwise the
`KeyError` from indexing `oauth_response["error_description"]`.  Either way no
token field is installed.  On the non-error path all four fields and both
absolute expiry times are installed. -/
def parse_oauth_response (s : TokenState) (resp : OAuthResponse) (requested_at : Int) :
    TokenState × Option PyError :=
  let s1 := { s with requested_at := requested_at }
  match resp.error with
  | some e =>
    match resp.error_description with
    | some d =>
      (s1, some (PyError.runtimeError
        ("Error requesting OAuth2 token with error " ++ e ++ " (" ++ d)))
    | none => (s1, some (PyError.keyError "error_description"))
  | none =>
    ({ s1 with
        auth_token := resp.access_token,
        refresh_token := resp.refresh_token,
        expires_seconds := resp.expires_in,
        refresh_expires_seconds := resp.refresh_expires_in,
        refresh_expires_at := requested_at + resp.refresh_expires_in,
        expires_at := requested_at + resp.expires_in }, none)

/-- `EncapsulatedOAuth2Token.refresh` (lines 109–125): posts to the token
endpoint and feeds the JSON response to `parse_oauth_response` with
`requested_at = datetime.now()`.  The HTTP exchange is abstracted into the
response value `resp`. -/
def refresh (s : TokenState) (resp : OAuthResponse) (now : Int) :
    TokenState × Option PyError :=
  parse_oauth_response s resp now

/-! ## rewrite-id.py -/

/-- Python string slicing `xs[:n]` for an `Int` bound `n` (negative bounds
count from the end). -/
def pySlice (xs : List Char) (n : Int) : List Char :=
  if 0 ≤ n then xs.take n.toNat
  else xs.take (xs.length - (-n).toNat)

/-- The id rewrite of rewrite-id.py lines 15–17:
`allowed_length = 64 - len(suffix) - 1`, `trim_id = current_id[:allowed_length]`,
`new_id = f"<trim_id>_<suffix>"`.  Strings are modelled as character lists. -/
def rewriteId (currentId suffix : List Char) : List Char :=
  let allowed_length : Int := 64 - (suffix.length : Int) - 1
  let trim_id := pySlice currentId allowed_length
  trim_id ++ ('_' :: suffix)

/-! ## Expansion Verifier: `try_expand_valueset` (lines 639–685)

An expansion entry is represented by its `system` URI; an include element of
`compose.include` likewise by its `system`.  (In the source these can also be
Python `None`; `None` behaves as just another hashable value in every set,
dict and count operation used here, so restricting to strings loses no
behaviour relevant to the claims.) -/

/-- Result of `GET {endpoint}/$expand` as seen by `try_expand_valueset` after
`session.send`: the HTTP status code and what parsing the body yields.
`parseError` covers the `except` branch of `ValueSet.parse_obj`;
`noExpansion` covers `expansion_vs.expansion` being `None` (the subsequent
attribute access raises and is caught by the same `except`); `expansion c`
carries `expansion.contains` (`none` for JSON null, otherwise the list of the
entries' `system` values). -/
inductive ExpBody
  | parseError
  | noExpansion
  | expansion (contains : Option (List String))
deriving DecidableEq

/-- An expansion HTTP response: status code plus parsed body. -/
structure ExpResponse where
  status : Nat
  body : ExpBody
deriving DecidableEq

/-- Python `any(l)` on a list of strings: true iff some element is truthy,
i.e. a non-empty string. -/
def pyAnyStr (l : List String) : Bool :=
  l.any (fun s => decide (¬ s = ""))

/-- `system_counts` (line 661): `{l: system_map.count(l) for l in set(system_map)}`,
the per-system concept counts keyed by the systems occurring in the expansion. -/
def systemCounts (systemMap : List String) : List (String × Nat) :=
  systemMap.dedup.map (fun l => (l, systemMap.count l))

/-- `empty_systems` (lines 663–664): entries of `system_counts` with count zero
whose system is referenced in `compose.include`. -/
def emptySystems (systemMap contained : List String) : List String :=
  ((systemCounts systemMap).filter
    (fun p => decide (p.2 = 0 ∧ p.1 ∈ contained))).map Prod.fst

/-- `missing_expand_systems` (lines 665–666): referenced systems absent from
the keys of `system_counts`. -/
def missingExpandSystems (systemMap contained : List String) : List String :=
  contained.filter (fun x => decide (¬ x ∈ (systemCounts systemMap).map Prod.fst))

/-- `try_expand_valueset` (lines 639–685).  `includeSystems` is the list of
`system` values of `vs.compose.include`; `none` models `vs.compose` being
absent, in which case the attribute access raises and the `except` branch
returns `False`.  The two final guards use Python `any()` on lists of strings,
which tests element truthiness, not list non-emptiness. -/
def tryExpandValueset (includeSystems : Option (List String)) (resp : ExpResponse) : Bool :=
  if 200 ≤ resp.status ∧ resp.status < 300 then
    match resp.body with
    | ExpBody.parseError => false
    | ExpBody.noExpansion => false
    | ExpBody.expansion none => false
    | ExpBody.expansion (some systemMap) =>
      match includeSystems with
      | none => false
      | some includeList =>
        let contained := includeList.dedup
        if pyAnyStr (emptySystems systemMap contained) then false
        else if pyAnyStr (missingExpandSystems systemMap contained) then false
        else true
  else false

/-! ## Resource Router (upload-resources.py lines 454–470)

`urljoin(base.geturl(), rel)` with `base = urlparse(endpoint.rstrip('/') + "/")`
and a plain relative path `rel` is concatenation of the base URL (which ends
in `/`) with `rel`; it is modelled as string append. -/

/-- Python `str.strip()`: remove leading and trailing whitespace. -/
def pyStrip (s : String) : String :=
  String.mk (((s.data.dropWhile Char.isWhitespace).reverse.dropWhile
    Char.isWhitespace).reverse)

/-- The routing decision made once per resource, before the retry loop. -/
structure RouteResult where
  method : String
  url : String
  resId : Option String
  prompted : Bool
deriving DecidableEq

/-- Lines 454–470: `method = "PUT"`; if `res.id` is `None`, prompt for an id
(`promptInput` is what `input("ID? ")` returns); a blank (whitespace-only)
answer switches to POST against the collection endpoint, a non-blank answer is
stripped and assigned to `res.id`; if the method is still PUT the endpoint is
`{base}{resourceType}/{id}`.  `prompted` records whether `input` was called. -/
def routeResource (base resourceType : String) (resId : Option String)
    (promptInput : String) : RouteResult :=
  match resId with
  | some i =>
    { method := "PUT", url := base ++ resourceType ++ "/" ++ i,
      resId := some i, prompted := false }
  | none =>
    let new_id := pyStrip promptInput
    if new_id = "" then
      { method := "POST", url := base ++ resourceType,
        resId := none, prompted := true }
    else
      { method := "PUT", url := base ++ resourceType ++ "/" ++ new_id,
        resId := some new_id, prompted := true }

/-! ## Upload State Machine: the retry loop of `upload_resources`
(lines 472–556) -/

/-- The three recovery actions offered by the failure prompt (lines 512–521). -/
inductive Action
  | Edit
  | Ignore
  | Retry
deriving DecidableEq

/-- How the loop for one resource ends: with `upload_success` true
(`Succeeded`) or by `break`/guard exit with it false (`Abandoned`). -/
inductive LoopOutcome
  | Succeeded
  | Abandoned
deriving DecidableEq

/-- Record of one iteration of the upload loop (one HTTP attempt):
the attempt counter value, the method/URL used, the response status, the
`compose.include` systems of the resource body sent, the logged resource URL
(captured only on a 2xx response, lines 491–495), whether the attempt was
classified successful, and — when it was not — the recovery action the
operator chose at the failure prompt. -/
structure AttemptRec where
  n : Nat
  method : String
  url : String
  status : Nat
  inc : Option (List String)
  resourceUrl : Option String
  success : Bool
  action : Option Action
deriving DecidableEq

/-- The environment of one resource's upload loop: everything the loop reads
from the outside world at attempt `n` — the upload response status, the `id`
field and `Content-Location` header of a 2xx response body, the expansion
response, the operator's choice at the failure prompt, the
`compose.include` systems of the resource produced by an edit, and whether the
operator asks to manually edit after a success. -/
structure Env where
  status : Nat → Nat
  respId : Nat → String
  contentLocation : Nat → Option String
  expand : Nat → ExpResponse
  failAction : Nat → Action
  editResult : Nat → Option (List String)
  manualEdit : Nat → Bool

/-- Classification of one attempt (lines 490–510): a 2xx status is a success,
except that for a ValueSet the expansion verifier must also pass; any other
status is a failure. -/
def attemptSuccess (resourceType : String) (inc : Option (List String))
    (st : Nat) (resp : ExpResponse) : Bool :=
  if 200 ≤ st ∧ st < 300 then
    (if resourceType = "ValueSet" then tryExpandValueset inc resp else true)
  else false

/-- The attempt record produced by one loop iteration with counter value `n`
and current resource include systems `inc`. -/
def mkAttempt (env : Env) (resourceType method url : String)
    (inc : Option (List String)) (n : Nat) : AttemptRec :=
  let st := env.status n
  { n := n, method := method, url := url, status := st, inc := inc,
    resourceUrl :=
      if 200 ≤ st ∧ st < 300 then
        some ((env.contentLocation n).getD (url ++ "/" ++ env.respId n))
      else none,
    success := attemptSuccess resourceType inc st (env.expand n),
    action :=
      if attemptSuccess resourceType inc st (env.expand n) then none
      else some (env.failAction n) }

/-- The retry loop (lines 472–556), fuel-indexed.
`while (not upload_success and count_uploads <= max_tries)`: each iteration
first increments the counter, sends the request and classifies the attempt;
on failure the operator chooses Ignore (`break`), Retry (`continue`) or Edit
(edit the resource, then `continue`); on success the operator may ask for a
manual edit, which resets `upload_success` to false and continues, otherwise
the loop exits successfully.  Every entry into the loop body consumes one unit
of fuel and increments `count` by one, and every recursive call passes
`success = false`, so with initial fuel `maxTries + 1 - count` the fuel-zero
arm coincides exactly with the guard exit (`maxTries < count`, success false):
the fueled function equals the unbounded `while` loop. -/
def loopIter (env : Env) (resourceType method url : String) (maxTries : Nat) :
    Nat → Bool → Nat → Option (List String) → LoopOutcome × List AttemptRec
  | 0, success, _, _ =>
    (if success then LoopOutcome.Succeeded else LoopOutcome.Abandoned, [])
  | fuel + 1, success, count, inc =>
    if success ∨ maxTries < count then
      (if success then LoopOutcome.Succeeded else LoopOutcome.Abandoned, [])
    else
      let a := mkAttempt env resourceType method url inc (count + 1)
      if a.success then
        if env.manualEdit (count + 1) then
          let r := loopIter env resourceType method url maxTries fuel false
            (count + 1) (env.editResult (count + 1))
          (r.1, a :: r.2)
        else
          (LoopOutcome.Succeeded, [a])
      else
        match env.failAction (count + 1) with
        | Action.Ignore => (LoopOutcome.Abandoned, [a])
        | Action.Retry =>
          let r := loopIter env resourceType method url maxTries fuel false
            (count + 1) inc
          (r.1, a :: r.2)
        | Action.Edit =>
          let r := loopIter env resourceType method url maxTries fuel false
            (count + 1) (env.editResult (count + 1))
          (r.1, a :: r.2)

/-- Processing of one resource by `upload_resources` (lines 447–556): route it
(method and URL are decided once, before the loop), then run the retry loop
with `upload_success = False`, `count_uploads = 0` and the resource's current
`compose.include` systems `inc0`. -/
def uploadResource (base resourceType : String) (resId : Option String)
    (promptInput : String) (inc0 : Option (List String)) (env : Env)
    (maxTries : Nat) : RouteResult × LoopOutcome × List AttemptRec :=
  let route := routeResource base resourceType resId promptInput
  (route,
    loopIter env resourceType route.method route.url maxTries (maxTries + 1)
      false 0 inc0)

/-! ## Helper lemmas about the expansion verifier -/

/-- Every per-system count in `system_counts` is at least one, because the
keys are exactly the systems occurring in the expansion. -/
theorem systemCounts_pos (systemMap : List String) :
    ∀ p ∈ systemCounts systemMap, 0 < p.2 := by
  intro p hp
  simp only [systemCounts, List.mem_map] at hp
  obtain ⟨l, hl, rfl⟩ := hp
  simpa [List.count_pos_iff] using List.mem_dedup.mp hl

/-- The keys of `system_counts` are the deduplicated systems of the
expansion. -/
theorem systemCounts_keys (systemMap : List String) :
    (systemCounts systemMap).map Prod.fst = systemMap.dedup := by
  simp [systemCounts, List.map_map, Function.comp_def]

/-- `empty_systems` is always the empty list. -/
theorem emptySystems_eq_nil (systemMap contained : List String) :
    emptySystems systemMap contained = [] := by
  simp only [emptySystems, List.map_eq_nil_iff, List.filter_eq_nil_iff]
  intro p hp
  have hpos := systemCounts_pos systemMap p hp
  simp only [decide_eq_true_eq, not_and]
  intro h0
  omega

/-- Python `any` over an empty list is false. -/
theorem pyAnyStr_nil : pyAnyStr [] = false := rfl

/-- Python `any` over a list of strings is false iff every element is the
empty string. -/
theorem pyAnyStr_eq_false (l : List String) :
    pyAnyStr l = false ↔ ∀ s ∈ l, s = "" := by
  simp [pyAnyStr]

/-- Claim C9: in the expansion verifier the `empty_systems` failure branch is
unreachable — the per-system counts are computed by counting occurrences of
each system actually present in `expansion.contains`, so every count in the
map is at least 1 and the empty-systems list is always empty; a referenced
system with zero concepts can only be detected via the missing-system check. -/
theorem C9_empty_systems_unreachable (systemMap contained : List String) :
    emptySystems systemMap contained = [] ∧
      ∀ p ∈ systemCounts systemMap, 0 < p.2 :=
  ⟨emptySystems_eq_nil systemMap contained, systemCounts_pos systemMap⟩

/-- Claim C4 (counterexample): the verifier does not fail on every referenced
system that is absent (has zero concepts) in the expansion.  With
`compose.include` referencing the empty-string system and an expansion
containing only `http://a`, the referenced system `""` has count zero and is
absent from the expansion's systems, yet the verifier passes, because the
missing-system guard uses Python `any()`, which tests element truthiness and
ignores the falsy string `""`. -/
theorem C4_counterexample :
    tryExpandValueset (some [""])
        { status := 200, body := ExpBody.expansion (some ["http://a"]) } = true ∧
      (["http://a"] : List String).count "" = 0 := by
  decide

/-- Claim C4 (amended): the expansion verifier passes exactly when the
response status is 2xx, the parsed expansion's `contains` is present, and
every *non-empty* code-system URI referenced in `compose.include` appears
among the expansion's systems with a nonzero concept count; it fails on a
non-2xx response, on an absent `expansion.contains`, and on any non-empty
referenced system absent from the expansion.  (A referenced system equal to
the empty string is exempt, since the final guards test the failure lists
with Python `any()`, i.e. element truthiness; and the empty-system check can
never fire, see C9.) -/
theorem C4_pass_iff (includeList : List String) (resp : ExpResponse) :
    tryExpandValueset (some includeList) resp = true ↔
      (200 ≤ resp.status ∧ resp.status < 300 ∧
        ∃ systemMap, resp.body = ExpBody.expansion (some systemMap) ∧
          ∀ s ∈ includeList, s ≠ "" → 0 < systemMap.count s) := by
  obtain ⟨st, body⟩ := resp
  simp only [tryExpandValueset]
  by_cases h2xx : 200 ≤ st ∧ st < 300
  · simp only [if_pos h2xx]
    cases body with
    | parseError => simp [h2xx]
    | noExpansion => simp [h2xx]
    | expansion c =>
      cases c with
      | none => simp [h2xx]
      | some systemMap =>
        simp only [emptySystems_eq_nil, pyAnyStr_nil, Bool.false_eq_true,
          if_false]
        constructor
        · intro h
          refine ⟨h2xx.1, h2xx.2, systemMap, rfl, ?_⟩
          intro s hs hne
          by_contra hcount
          have hsm : ¬ s ∈ systemMap := by
            intro hmem
            exact hcount (List.count_pos_iff.mpr hmem)
          have hmiss : s ∈ missingExpandSystems systemMap includeList.dedup := by
            simp [missingExpandSystems, systemCounts_keys, List.mem_dedup, hs, hsm]
          have : pyAnyStr (missingExpandSystems systemMap includeList.dedup) = true := by
            simp only [pyAnyStr, List.any_eq_true]
            exact ⟨s, hmiss, by simpa using hne⟩
          rw [this] at h
          simp at h
        · rintro ⟨-, -, sm, heq, hall⟩
          have h12 : systemMap = sm := Option.some.inj (ExpBody.expansion.inj heq)
          rw [← h12] at hall
          have hfalse : pyAnyStr (missingExpandSystems systemMap includeList.dedup) = false := by
            rw [pyAnyStr_eq_false]
            intro s hsmem
            simp only [missingExpandSystems, systemCounts_keys, List.mem_filter,
              List.mem_dedup, decide_eq_true_eq] at hsmem
            by_contra hne
            have := hall s hsmem.1 hne
            exact hsmem.2 (List.count_pos_iff.mp this)
          rw [hfalse]
          simp
  · simp only [if_neg h2xx]
    constructor
    · intro h
      simp at h
    · rintro ⟨h1, h2, -⟩
      exact absurd ⟨h1, h2⟩ h2xx

/-! ## Helper lemmas about the upload loop -/

theorem mkAttempt_n (env : Env) (rt m u : String) (j : Option (List String))
    (n : Nat) : (mkAttempt env rt m u j n).n = n := rfl

theorem mkAttempt_method (env : Env) (rt m u : String) (j : Option (List String))
    (n : Nat) : (mkAttempt env rt m u j n).method = m := rfl

theorem mkAttempt_url (env : Env) (rt m u : String) (j : Option (List String))
    (n : Nat) : (mkAttempt env rt m u j n).url = u := rfl

theorem mkAttempt_status (env : Env) (rt m u : String) (j : Option (List String))
    (n : Nat) : (mkAttempt env rt m u j n).status = env.status n := rfl

theorem mkAttempt_inc (env : Env) (rt m u : String) (j : Option (List String))
    (n : Nat) : (mkAttempt env rt m u j n).inc = j := rfl

theorem mkAttempt_success (env : Env) (rt m u : String) (j : Option (List String))
    (n : Nat) :
    (mkAttempt env rt m u j n).success
      = attemptSuccess rt j (env.status n) (env.expand n) := rfl

theorem mkAttempt_action_of_fail (env : Env) (rt m u : String)
    (j : Option (List String)) (n : Nat)
    (h : attemptSuccess rt j (env.status n) (env.expand n) = false) :
    (mkAttempt env rt m u j n).action = some (env.failAction n) := by
  simp only [mkAttempt]
  rw [if_neg]
  simp [h]

theorem mkAttempt_resourceUrl (env : Env) (rt m u : String)
    (j : Option (List String)) (n : Nat)
    (h : 200 ≤ env.status n ∧ env.status n < 300) :
    (mkAttempt env rt m u j n).resourceUrl
      = some ((env.contentLocation n).getD (u ++ "/" ++ env.respId n)) := by
  simp only [mkAttempt]
  rw [if_pos h]

/-- The loop performs at most `fuel` attempts. -/
theorem loopIter_length_le (env : Env) (rt m u : String) (mt : Nat) :
    ∀ fuel s c inc, (loopIter env rt m u mt fuel s c inc).2.length ≤ fuel := by
  intro fuel
  induction fuel with
  | zero =>
    intro s c inc
    simp [loopIter]
  | succ fuel ih =>
    intro s c inc
    rw [loopIter]
    split
    · simp
    · dsimp only
      split
      · split
        · simpa using ih false (c + 1) _
        · simp
      · split
        · simp
        · simpa using ih false (c + 1) _
        · simpa using ih false (c + 1) _

/-- Every record of the loop's trace is an attempt record produced by
`mkAttempt`, with a counter value strictly between the starting count and
both `count + fuel` and `maxTries + 1`. -/
theorem loopIter_shape (env : Env) (rt m u : String) (mt : Nat) :
    ∀ fuel s c inc a, a ∈ (loopIter env rt m u mt fuel s c inc).2 →
      ∃ n j, c < n ∧ n ≤ c + fuel ∧ n ≤ mt + 1 ∧ a = mkAttempt env rt m u j n := by
  intro fuel
  induction fuel with
  | zero =>
    intro s c inc a ha
    simp [loopIter] at ha
  | succ fuel ih =>
    intro s c inc a ha
    rw [loopIter] at ha
    split at ha
    · simp at ha
    · rename_i hguard
      have hc : c ≤ mt := by
        rcases Nat.lt_or_ge mt c with h | h
        · exact absurd (Or.inr h) hguard
        · exact h
      dsimp only at ha
      split at ha
      · split at ha
        · simp only [List.mem_cons] at ha
          rcases ha with rfl | ha
          · exact ⟨c + 1, inc, Nat.lt_succ_self c, by omega, by omega, rfl⟩
          · obtain ⟨n, j, h1, h2, h3, h4⟩ := ih false (c + 1) _ a ha
            exact ⟨n, j, by omega, by omega, h3, h4⟩
        · simp only [List.mem_singleton] at ha
          exact ⟨c + 1, inc, Nat.lt_succ_self c, by omega, by omega, ha⟩
      · split at ha
        · simp only [List.mem_singleton] at ha
          exact ⟨c + 1, inc, Nat.lt_succ_self c, by omega, by omega, ha⟩
        · simp only [List.mem_cons] at ha
          rcases ha with rfl | ha
          · exact ⟨c + 1, inc, Nat.lt_succ_self c, by omega, by omega, rfl⟩
          · obtain ⟨n, j, h1, h2, h3, h4⟩ := ih false (c + 1) _ a ha
            exact ⟨n, j, by omega, by omega, h3, h4⟩
        · simp only [List.mem_cons] at ha
          rcases ha with rfl | ha
          · exact ⟨c + 1, inc, Nat.lt_succ_self c, by omega, by omega, rfl⟩
          · obtain ⟨n, j, h1, h2, h3, h4⟩ := ih false (c + 1) _ a ha
            exact ⟨n, j, by omega, by omega, h3, h4⟩

/-- Once the counter has passed `maxTries` with `upload_success` false, the
loop terminates immediately with `Abandoned`. -/
theorem loopIter_out_of_tries (env : Env) (rt m u : String) (mt : Nat)
    (fuel c : Nat) (inc : Option (List String)) (h : mt < c) :
    (loopIter env rt m u mt fuel false c inc).1 = LoopOutcome.Abandoned := by
  cases fuel with
  | zero => simp [loopIter]
  | succ fuel =>
    rw [loopIter]
    rw [if_pos (Or.inr h)]
    simp

/-- If the trace contains a failed attempt whose counter value exceeds
`maxTries`, the loop's outcome is `Abandoned`, whatever recovery action the
operator chose there. -/
theorem loopIter_abandoned (env : Env) (rt m u : String) (mt : Nat) :
    ∀ fuel s c inc a, a ∈ (loopIter env rt m u mt fuel s c inc).2 →
      mt < a.n → a.success = false →
      (loopIter env rt m u mt fuel s c inc).1 = LoopOutcome.Abandoned := by
  intro fuel
  induction fuel with
  | zero =>
    intro s c inc a ha
    simp [loopIter] at ha
  | succ fuel ih =>
    intro s c inc a ha hn hs
    by_cases hg : (s = true ∨ mt < c)
    · rw [loopIter] at ha
      rw [if_pos hg] at ha
      simp at ha
    · rw [loopIter] at ha ⊢
      rw [if_neg hg] at ha ⊢
      dsimp only at ha ⊢
      by_cases hsucc : (mkAttempt env rt m u inc (c + 1)).success = true
      · rw [if_pos hsucc] at ha ⊢
        by_cases hme : env.manualEdit (c + 1) = true
        · rw [if_pos hme] at ha ⊢
          simp only [List.mem_cons] at ha
          rcases ha with rfl | ha
          · rw [hsucc] at hs
            exact absurd hs (by simp)
          · exact ih false (c + 1) _ a ha hn hs
        · rw [if_neg hme] at ha
          simp only [List.mem_singleton] at ha
          rw [ha] at hs
          rw [hsucc] at hs
          exact absurd hs (by simp)
      · rw [if_neg hsucc] at ha ⊢
        cases hact : env.failAction (c + 1) with
        | Ignore =>
          simp only [hact] at ha ⊢
        | Retry =>
          simp only [hact] at ha ⊢
          simp only [List.mem_cons] at ha
          rcases ha with rfl | ha
          · exact loopIter_out_of_tries env rt m u mt fuel (c + 1) inc
              (by simpa using hn)
          · exact ih false (c + 1) _ a ha hn hs
        | Edit =>
          simp only [hact] at ha ⊢
          simp only [List.mem_cons] at ha
          rcases ha with rfl | ha
          · exact loopIter_out_of_tries env rt m u mt fuel (c + 1) _
              (by simpa using hn)
          · exact ih false (c + 1) _ a ha hn hs

/-! ## Claims about the upload loop -/

/-- Claim C1 (amended): for every resource the upload loop performs at most
`max_tries + 1` attempts (the guard `count_uploads <= max_tries` is tested
before the increment, so with the default `max_tries = 10` an 11th attempt is
possible); the attempt counter never exceeds `max_tries + 1`; and once an
attempt's counter value exceeds `max_tries` and that attempt fails, the
resource's loop ends as `Abandoned` regardless of the recovery action the
operator chose there. -/
theorem C1_attempt_ceiling (base rt : String) (resId : Option String)
    (p : String) (inc0 : Option (List String)) (env : Env) (maxTries : Nat) :
    (uploadResource base rt resId p inc0 env maxTries).2.2.length ≤ maxTries + 1 ∧
      (∀ a ∈ (uploadResource base rt resId p inc0 env maxTries).2.2,
        a.n ≤ maxTries + 1) ∧
      ((∃ a ∈ (uploadResource base rt resId p inc0 env maxTries).2.2,
          maxTries < a.n ∧ a.success = false) →
        (uploadResource base rt resId p inc0 env maxTries).2.1
          = LoopOutcome.Abandoned) := by
  refine ⟨?_, ?_, ?_⟩
  · exact loopIter_length_le env rt _ _ maxTries (maxTries + 1) false 0 inc0
  · intro a ha
    obtain ⟨n, j, h1, h2, h3, h4⟩ :=
      loopIter_shape env rt _ _ maxTries (maxTries + 1) false 0 inc0 a ha
    rw [h4, mkAttempt_n]
    exact h3
  · rintro ⟨a, ha, hn, hs⟩
    exact loopIter_abandoned env rt _ _ maxTries (maxTries + 1) false 0 inc0
      a ha hn hs

/-- Environment for the C1 witness and counterexample: every upload returns
status 500 and the operator always chooses Retry. -/
def envC1 : Env :=
  { status := fun _ => 500, respId := fun _ => "",
    contentLocation := fun _ => none,
    expand := fun _ => { status := 500, body := ExpBody.parseError },
    failAction := fun _ => Action.Retry,
    editResult := fun _ => none, manualEdit := fun _ => false }

theorem C1_attempt_ceiling_witness :
    (uploadResource "b/" "CodeSystem" (some "x") "" none envC1 10).2.1
      = LoopOutcome.Abandoned :=
  (C1_attempt_ceiling "b/" "CodeSystem" (some "x") "" none envC1 10).2.2
    (by decide)

/-- Claim C1 (counterexample to the claim as stated): with the default
`max_tries = 10`, a resource whose uploads always fail with status 500 and
whose operator always chooses Retry undergoes 11 upload attempts, and the
attempt counter reaches 11 > 10. -/
theorem C1_counterexample :
    (uploadResource "b/" "CodeSystem" (some "x") "" none envC1 10).2.2.length = 11 ∧
      ¬ ((uploadResource "b/" "CodeSystem" (some "x") "" none envC1 10).2.2.length ≤ 10) ∧
      (uploadResource "b/" "CodeSystem" (some "x") "" none envC1 10).2.2.map
          AttemptRec.n = [1, 2, 3, 4, 5, 6, 7, 8, 9, 10, 11] := by
  decide

/-- Claim C2 (amended): for a resource whose id is unset and whose operator
answers the id prompt with a blank string, the router selects POST against
the collection endpoint; on every 2xx response the server-assigned identifier
is captured into the logged resource URL; but the routing decision is made
exactly once, before the retry loop, so every attempt in the run — including
those after a captured identifier — reuses the same POST method and the same
collection URL and never switches to PUT. -/
theorem C2_post_routing_is_fixed (base rt p : String)
    (inc0 : Option (List String)) (env : Env) (maxTries : Nat)
    (h : pyStrip p = "") :
    (uploadResource base rt none p inc0 env maxTries).1.method = "POST" ∧
      (uploadResource base rt none p inc0 env maxTries).1.url = base ++ rt ∧
      ∀ a ∈ (uploadResource base rt none p inc0 env maxTries).2.2,
        a.method = "POST" ∧ a.url = base ++ rt ∧
          (200 ≤ a.status ∧ a.status < 300 →
            a.resourceUrl = some ((env.contentLocation a.n).getD
              (base ++ rt ++ "/" ++ env.respId a.n))) := by
  have hroute : routeResource base rt none p
      = { method := "POST", url := base ++ rt, resId := none,
          prompted := true } := by
    simp [routeResource, h]
  refine ⟨?_, ?_, ?_⟩
  · show (routeResource base rt none p).method = "POST"
    rw [hroute]
  · show (routeResource base rt none p).url = base ++ rt
    rw [hroute]
  · intro a ha
    have ha2 : a ∈ (loopIter env rt (routeResource base rt none p).method
        (routeResource base rt none p).url maxTries (maxTries + 1)
        false 0 inc0).2 := ha
    rw [hroute] at ha2
    obtain ⟨n, j, h1, h2, h3, h4⟩ :=
      loopIter_shape env rt "POST" (base ++ rt) maxTries (maxTries + 1)
        false 0 inc0 a ha2
    subst h4
    refine ⟨rfl, rfl, ?_⟩
    intro hst
    exact mkAttempt_resourceUrl env rt "POST" (base ++ rt) j n hst

/-- Environment for the C2 witness: uploads succeed with 201 and the
operator declines the manual edit. -/
def envC2w : Env :=
  { status := fun _ => 201, respId := fun _ => "abc123",
    contentLocation := fun _ => none,
    expand := fun _ => { status := 200, body := ExpBody.expansion (some ["http://y"]) },
    failAction := fun _ => Action.Ignore,
    editResult := fun _ => none, manualEdit := fun _ => false }

theorem C2_post_routing_is_fixed_witness :
    (uploadResource "b/" "CodeSystem" none " " none envC2w 10).1.method
        = "POST" ∧
      (uploadResource "b/" "CodeSystem" none " " none envC2w 10).1.url
        = "b/" ++ "CodeSystem" := by
  have h := C2_post_routing_is_fixed "b/" "CodeSystem" " " none envC2w 10
    (by decide)
  exact ⟨h.1, h.2.1⟩

/-- Environment for the C2 counterexample: a ValueSet without id is POSTed,
the server answers 201 with id `abc123`, but the expansion check fails, the
operator retries once and then ignores. -/
def envC2x : Env :=
  { status := fun _ => 201, respId := fun _ => "abc123",
    contentLocation := fun _ => none,
    expand := fun _ => { status := 200, body := ExpBody.expansion (some ["http://y"]) },
    failAction := fun n => if n = 1 then Action.Retry else Action.Ignore,
    editResult := fun _ => none, manualEdit := fun _ => false }

/-- Claim C2 (counterexample to the claim as stated): the first attempt is a
POST whose 2xx response id `abc123` is captured (visible in the logged
resource URL), yet the second attempt on the same resource still uses POST
against the collection endpoint — it does not switch to PUT and does not use
the captured identifier in its target URL. -/
theorem C2_counterexample :
    (uploadResource "b/" "ValueSet" none "" (some ["http://x"]) envC2x
            10).2.2.map AttemptRec.method = ["POST", "POST"] ∧
      (uploadResource "b/" "ValueSet" none "" (some ["http://x"]) envC2x
            10).2.2.map AttemptRec.url = ["b/ValueSet", "b/ValueSet"] ∧
      (uploadResource "b/" "ValueSet" none "" (some ["http://x"]) envC2x
            10).2.2.map AttemptRec.resourceUrl
        = [some "b/ValueSet/abc123", some "b/ValueSet/abc123"] ∧
      ¬ "POST" = "PUT" := by
  decide

/-- Claim C3: for a ValueSet resource, an attempt whose upload response is
2xx but whose expansion verification fails is never classified successful:
the attempt's success flag is false and the operator is prompted for a
recovery action (the `NeedsDecision` state). -/
theorem C3_expansion_gates_success (base : String) (resId : Option String)
    (p : String) (inc0 : Option (List String)) (env : Env) (maxTries : Nat)
    (a : AttemptRec)
    (ha : a ∈ (uploadResource base "ValueSet" resId p inc0 env maxTries).2.2)
    (h1 : 200 ≤ a.status) (h2 : a.status < 300)
    (hexp : tryExpandValueset a.inc (env.expand a.n) = false) :
    a.success = false ∧ a.action = some (env.failAction a.n) := by
  obtain ⟨n, j, hn1, hn2, hn3, h4⟩ :=
    loopIter_shape env "ValueSet" _ _ maxTries (maxTries + 1) false 0 inc0 a ha
  subst h4
  have hsucc : attemptSuccess "ValueSet" j (env.status n) (env.expand n)
      = false := by
    unfold attemptSuccess
    rw [if_pos ⟨h1, h2⟩, if_pos rfl]
    exact hexp
  exact ⟨hsucc, mkAttempt_action_of_fail env "ValueSet" _ _ j n hsucc⟩

/-- Environment for the C3 witness: the upload returns 200 but the expansion
lacks the referenced system `http://x.org/cs`; the operator chooses Ignore. -/
def envC3 : Env :=
  { status := fun _ => 200, respId := fun _ => "x",
    contentLocation := fun _ => none,
    expand := fun _ => { status := 200, body := ExpBody.expansion (some ["http://other"]) },
    failAction := fun _ => Action.Ignore,
    editResult := fun _ => none, manualEdit := fun _ => false }

/-- The single attempt record produced in the C3 witness run. -/
def attemptC3 : AttemptRec :=
  { n := 1, method := "PUT", url := "b/ValueSet/vs1", status := 200,
    inc := some ["http://x.org/cs"], resourceUrl := some "b/ValueSet/vs1/x",
    success := false, action := some Action.Ignore }

theorem C3_expansion_gates_success_witness :
    attemptC3.success = false ∧ attemptC3.action = some (envC3.failAction 1) :=
  C3_expansion_gates_success "b/" (some "vs1") "" (some ["http://x.org/cs"])
    envC3 10 attemptC3 (by decide) (by decide) (by decide) (by decide)

/-! ## Claims about the token lifecycle -/

/-- A credential state exhibiting the fall-through path of `needs_refresh`:
the access token expires 10 s from now (not yet expired), the refresh token
100 s from now, `refresh_expires_seconds = 100` and tolerance `0.2`.  Then
`refresh_freshness = 1.0 > 0.2` but `token_freshness = 0.1 ≤ 0.2`. -/
def tokenC5 : TokenState :=
  { auth_token := "t", refresh_token := "r", expires_seconds := 10,
    expires_at := 10, refresh_expires_seconds := 100,
    refresh_expires_at := 100, requested_at := 0, refresh_tolerance := 1/5 }

/-- Claim C5: the contract declares `needsRefresh() -> bool`, but the code
does not return a boolean on every call — on the branch where the access
token is unexpired, the refresh token is fresh, and `token_freshness()` is
within tolerance, the method logs and falls through without a `return`,
so Python returns `None`.  At the concrete credential state `tokenC5` and
current time 0 the result is `none`, not a boolean. -/
theorem C5_needs_refresh_not_bool : needs_refresh tokenC5 0 = none := by
  simp only [needs_refresh, refresh_freshness, token_freshness, freshness,
    timedeltaSeconds, round2, tokenC5]
  norm_num

/-- Claim C6: once the current wall-clock time exceeds the access-token
expiry, `needs_refresh` returns `True` (the first branch), independent of
every other field of the credential. -/
theorem C6_expired_forces_refresh (s : TokenState) (now : Int)
    (h : s.expires_at < now) : needs_refresh s now = some true := by
  simp [needs_refresh, h]

/-- Credential state for the C6 witness. -/
def tokenC6 : TokenState :=
  { auth_token := "t", refresh_token := "r", expires_seconds := 10,
    expires_at := 10, refresh_expires_seconds := 100,
    refresh_expires_at := 100, requested_at := 0, refresh_tolerance := 1/5 }

theorem C6_expired_forces_refresh_witness :
    needs_refresh tokenC6 20 = some true :=
  C6_expired_forces_refresh tokenC6 20 (by decide)

/-- Claim C7: a token-endpoint response containing an `error` field makes the
refresh operation raise (a `RuntimeError`, or the `KeyError` from the missing
`error_description`) without installing any token data — the access token,
refresh token and both expiry times are left unchanged; a response without an
`error` field raises nothing and installs the returned access token, refresh
token, and both expiry times computed from the request time. -/
theorem C7_refresh_error_is_fatal (s : TokenState) (resp : OAuthResponse)
    (now : Int) :
    ((∀ e, resp.error = some e →
        (refresh s resp now).2.isSome = true ∧
        (refresh s resp now).1.auth_token = s.auth_token ∧
        (refresh s resp now).1.refresh_token = s.refresh_token ∧
        (refresh s resp now).1.expires_at = s.expires_at ∧
        (refresh s resp now).1.refresh_expires_at = s.refresh_expires_at) ∧
      (resp.error = none →
        (refresh s resp now).2 = none ∧
        (refresh s resp now).1.auth_token = resp.access_token ∧
        (refresh s resp now).1.refresh_token = resp.refresh_token ∧
        (refresh s resp now).1.expires_at = now + resp.expires_in ∧
        (refresh s resp now).1.refresh_expires_at
          = now + resp.refresh_expires_in)) := by
  constructor
  · intro e he
    cases hd : resp.error_description with
    | none => simp [refresh, parse_oauth_response, he, hd]
    | some d => simp [refresh, parse_oauth_response, he, hd]
  · intro he
    simp [refresh, parse_oauth_response, he]

/-- Token state for the C7 witness. -/
def tokenC7 : TokenState :=
  { auth_token := "old", refresh_token := "oldref", expires_seconds := 60,
    expires_at := 60, refresh_expires_seconds := 600,
    refresh_expires_at := 600, requested_at := 0, refresh_tolerance := 1/5 }

/-- An error response for the C7 witness. -/
def respErrC7 : OAuthResponse :=
  { error := some "invalid_grant", error_description := some "expired",
    access_token := "na", refresh_token := "nr", expires_in := 300,
    refresh_expires_in := 1800 }

/-- A successful response for the C7 witness. -/
def respOkC7 : OAuthResponse :=
  { error := none, error_description := none, access_token := "newtok",
    refresh_token := "newref", expires_in := 300,
    refresh_expires_in := 1800 }

theorem C7_refresh_error_is_fatal_witness :
    (refresh tokenC7 respErrC7 1000).2.isSome = true ∧
      (refresh tokenC7 respErrC7 1000).1.auth_token = "old" ∧
      (refresh tokenC7 respOkC7 1000).1.auth_token = "newtok" ∧
      (refresh tokenC7 respOkC7 1000).1.expires_at = 1000 + 300 := by
  have h1 := (C7_refresh_error_is_fatal tokenC7 respErrC7 1000).1
    "invalid_grant" rfl
  have h2 := (C7_refresh_error_is_fatal tokenC7 respOkC7 1000).2 rfl
  exact ⟨h1.1, h1.2.1, h2.2.1, h2.2.2.2.1⟩

/-! ## Claim about the resource router -/

/-- Claim C8: for a resource whose id is already set before routing, the
chosen method is always PUT (never POST), the chosen URL is
`{endpoint}/{resourceType}/{id}`, and no identifier prompt occurs — the
routing result is independent of whatever the prompt would have returned. -/
theorem C8_preexisting_id_uses_put (base rt i p q : String) :
    (routeResource base rt (some i) p).method = "PUT" ∧
      ¬ (routeResource base rt (some i) p).method = "POST" ∧
      (routeResource base rt (some i) p).url = base ++ rt ++ "/" ++ i ∧
      (routeResource base rt (some i) p).prompted = false ∧
      routeResource base rt (some i) p = routeResource base rt (some i) q := by
  refine ⟨rfl, ?_, rfl, rfl, rfl⟩
  intro h
  simp [routeResource] at h

/-! ## Claim about rewrite-id.py -/

/-- Claim C10: for every id and every suffix of length at most 63, the
rewritten id is the first `63 - len(suffix)` characters of the original id
followed by an underscore and the suffix; its length is at most 64 and it
always ends with an underscore followed by the suffix. -/
theorem C10_rewrite_id (currentId suffix : List Char)
    (h : suffix.length ≤ 63) :
    rewriteId currentId suffix
        = currentId.take (63 - suffix.length) ++ '_' :: suffix ∧
      (rewriteId currentId suffix).length ≤ 64 ∧
      List.IsSuffix ('_' :: suffix) (rewriteId currentId suffix) := by
  have heq : rewriteId currentId suffix
      = currentId.take (63 - suffix.length) ++ '_' :: suffix := by
    simp only [rewriteId, pySlice]
    rw [if_pos (by omega : (0:Int) ≤ 64 - (suffix.length : Int) - 1)]
    congr 2
    omega
  refine ⟨heq, ?_, ?_⟩
  · rw [heq]
    simp only [List.length_append, List.length_take, List.length_cons]
    omega
  · rw [heq]
    exact ⟨currentId.take (63 - suffix.length), rfl⟩

theorem C10_rewrite_id_witness :
    rewriteId ['a', 'b', 'c'] ['x', 'y']
        = ['a', 'b', 'c'].take 61 ++ '_' :: ['x', 'y'] ∧
      (rewriteId ['a', 'b', 'c'] ['x', 'y']).length ≤ 64 ∧
      List.IsSuffix ('_' :: ['x', 'y']) (rewriteId ['a', 'b', 'c'] ['x', 'y']) :=
  C10_rewrite_id ['a', 'b', 'c'] ['x', 'y'] (by decide)

end FhirTsBatch
